import Mathlib

/-!
Verification of the DORA exploratory-data-analysis pipeline.

Shallow embedding of the repository's core logic:
* `handle_high_cardinality` (src/dora/plots/utils.py, identical copy in
  src/dora/plots/univariate.py) — the CardinalityReducer;
* `univariate_generate_plots`, `bivariate_generate_plots`,
  `multivariate_generate_plots` (src/dora/plots/) — observable artifact-list
  behaviour of the step renderers;
* `Analyzer.run` (src/dora/analyzer.py) — the pipeline orchestrator.

A pandas Series cell is modelled as `Option String`: `none` is a null/NaN
entry, `some v` a categorical value.  Machine floats never influence the
control flow or the returned artifact lists of the modelled claims, so
numerical cell contents are not modelled.  Python exceptions are modelled
with `Except String`.
-/

set_option maxRecDepth 8000

/-- Cell of a pandas Series: `none` models a null/missing entry (NaN),
`some v` a present categorical value. -/
abbrev Cell := Option String

/-- Number of occurrences of the non-null value `v` in the series
(the frequency computed by `series.value_counts()` for `v`). -/
def countOcc (s : List Cell) (v : String) : Nat :=
  s.countP (fun c => c == some v)

/-- First-occurrence deduplication with an accumulator of already-seen
values.  pandas' hash table enumerates distinct values in
first-encountered order, which this mirrors. -/
def dedupFirstAux (seen : List String) : List String → List String
  | [] => []
  | v :: rest =>
    if seen.contains v then dedupFirstAux seen rest
    else v :: dedupFirstAux (v :: seen) rest

/-- Distinct values of a list, keeping the first occurrence of each. -/
def dedupFirst (l : List String) : List String :=
  dedupFirstAux [] l

/-- pandas `Series.nunique()`: the number of distinct non-null values. -/
def nunique (s : List Cell) : Nat :=
  (dedupFirst (s.filterMap id)).length

/-- Ordering used by `value_counts`: descending frequency (the second
component of a (value, count) pair). -/
def countGE (p q : String × Nat) : Prop := q.2 ≤ p.2

instance : DecidableRel countGE := fun p q => Nat.decLe q.2 p.2

instance : IsTotal (String × Nat) countGE := ⟨fun p q => Nat.le_total q.2 p.2⟩

instance : IsTrans (String × Nat) countGE := ⟨fun _ _ _ h1 h2 => Nat.le_trans h2 h1⟩

/-- pandas `series.value_counts()`: the distinct non-null values paired with
their frequencies, sorted by descending frequency.  Equal-frequency ties are
kept in first-encountered order (a stable sort over the hash table's
insertion order); the spec leaves the tie-break to the implementation and
this embedding pins it down. -/
def value_counts (s : List Cell) : List (String × Nat) :=
  List.insertionSort countGE
    ((dedupFirst (s.filterMap id)).map (fun v => (v, countOcc s v)))

/-- The kept categories: `series.value_counts().nlargest(max_categories - 1).index`
for `max_categories ≥ 2`; the code forces the empty index when
`max_categories == 1`. -/
def topCategories (s : List Cell) (m : Int) : List String :=
  if m = 1 then []
  else ((value_counts s).take (m - 1).toNat).map Prod.fst

/-- pandas `Series.isin`: membership of a cell in a list of values; a null
entry is never a member, so `where(isin(top), "Other")` rewrites nulls. -/
def isinCell (top : List String) : Cell → Bool
  | some v => top.contains v
  | none => false

/-- Message of the `ValueError` raised by `handle_high_cardinality`. -/
def errMaxCategories : String :=
  "max_categories must be an integer greater than or equal to 1"

/-- Shallow embedding of `handle_high_cardinality` from
src/dora/plots/utils.py (the CardinalityReducer).  Raising `ValueError` is
modelled as `Except.error`; `series.copy()` is value-equal to the series
itself, and the `CategoricalDtype`/`add_categories` bookkeeping does not
change any cell value, so both are dropped from the value-level model. -/
def handle_high_cardinality (s : List Cell) (m : Int) :
    Except String (List Cell × Bool) :=
  if m < 1 then
    Except.error errMaxCategories
  else if s.isEmpty then
    Except.ok (s, false)
  else if (nunique s : Int) ≤ m then
    Except.ok (s, false)
  else
    Except.ok
      (s.map (fun c => if isinCell (topCategories s m) c then c else some "Other"),
       true)

/-! ## Helper lemmas about the CardinalityReducer -/

theorem mem_dedupFirstAux (a : String) (l : List String) :
    ∀ seen : List String, a ∈ dedupFirstAux seen l ↔ a ∈ l ∧ a ∉ seen := by
  induction l with
  | nil => intro seen; simp [dedupFirstAux]
  | cons v rest ih =>
    intro seen
    by_cases hv : seen.contains v
    · rw [dedupFirstAux, if_pos hv, ih]
      have hv' : v ∈ seen := by
        simpa using hv
      constructor
      · rintro ⟨h1, h2⟩; exact ⟨List.mem_cons_of_mem _ h1, h2⟩
      · rintro ⟨h1, h2⟩
        rcases List.mem_cons.mp h1 with h1 | h1
        · subst h1; exact absurd hv' h2
        · exact ⟨h1, h2⟩
    · rw [dedupFirstAux, if_neg hv]
      have hv' : v ∉ seen := by
        simpa using hv
      by_cases hav : a = v
      · subst hav
        simp [hv']
      · rw [List.mem_cons]
        constructor
        · rintro (h | h)
          · exact absurd h hav
          · rcases (ih (v :: seen)).mp h with ⟨h1, h2⟩
            refine ⟨List.mem_cons_of_mem _ h1, fun hs => h2 (List.mem_cons_of_mem _ hs)⟩
        · rintro ⟨h1, h2⟩
          rcases List.mem_cons.mp h1 with h1 | h1
          · exact absurd h1 hav
          · refine Or.inr ((ih (v :: seen)).mpr ⟨h1, fun hs => ?_⟩)
            rcases List.mem_cons.mp hs with hs | hs
            · exact hav hs
            · exact h2 hs

theorem mem_dedupFirst (a : String) (l : List String) :
    a ∈ dedupFirst l ↔ a ∈ l := by
  rw [dedupFirst, mem_dedupFirstAux]
  simp

theorem nodup_dedupFirstAux (l : List String) :
    ∀ seen : List String, (dedupFirstAux seen l).Nodup := by
  induction l with
  | nil => intro seen; simp [dedupFirstAux]
  | cons v rest ih =>
    intro seen
    by_cases hv : seen.contains v
    · rw [dedupFirstAux, if_pos hv]; exact ih seen
    · rw [dedupFirstAux, if_neg hv]
      refine List.nodup_cons.mpr ⟨fun hmem => ?_, ih (v :: seen)⟩
      rcases (mem_dedupFirstAux v rest (v :: seen)).mp hmem with ⟨_, h2⟩
      exact h2 (List.mem_cons_self v seen)

theorem nodup_dedupFirst (l : List String) : (dedupFirst l).Nodup :=
  nodup_dedupFirstAux l []

/-- Distinct non-null values of `s` are exactly the `v` with `some v ∈ s`. -/
theorem mem_dedup_filterMap (s : List Cell) (v : String) :
    v ∈ dedupFirst (s.filterMap id) ↔ some v ∈ s := by
  rw [mem_dedupFirst, List.mem_filterMap]
  constructor
  · rintro ⟨c, hc, hcv⟩; cases c with
    | none => simp at hcv
    | some w => simp at hcv; subst hcv; exact hc
  · intro h; exact ⟨some v, h, rfl⟩

theorem value_counts_perm (s : List Cell) :
    List.Perm (value_counts s)
      ((dedupFirst (s.filterMap id)).map (fun v => (v, countOcc s v))) :=
  List.perm_insertionSort countGE _

theorem value_counts_sorted (s : List Cell) :
    List.Sorted countGE (value_counts s) :=
  List.sorted_insertionSort countGE _

theorem mem_value_counts (s : List Cell) (p : String × Nat) :
    p ∈ value_counts s ↔ some p.1 ∈ s ∧ p.2 = countOcc s p.1 := by
  rw [(value_counts_perm s).mem_iff, List.mem_map]
  constructor
  · rintro ⟨v, hv, hp⟩
    subst hp
    exact ⟨(mem_dedup_filterMap s v).mp hv, rfl⟩
  · rintro ⟨h1, h2⟩
    refine ⟨p.1, (mem_dedup_filterMap s p.1).mpr h1, ?_⟩
    rw [← h2]

theorem length_value_counts (s : List Cell) :
    (value_counts s).length = nunique s := by
  rw [(value_counts_perm s).length_eq, List.length_map, nunique]

/-- Bound on the number of distinct non-null values of a series all of whose
non-null values lie in the list `L`. -/
theorem nunique_le_of_subset (s : List Cell) (L : List String)
    (h : ∀ w : String, some w ∈ s → w ∈ L) : nunique s ≤ L.length := by
  have hd : (dedupFirst (s.filterMap id)).Nodup := nodup_dedupFirst _
  have hsub : (dedupFirst (s.filterMap id)).toFinset ⊆ L.toFinset := by
    intro a ha
    rw [List.mem_toFinset] at *
    exact h a ((mem_dedup_filterMap s a).mp ha)
  calc (dedupFirst (s.filterMap id)).length
      = (dedupFirst (s.filterMap id)).toFinset.card :=
        (List.toFinset_card_of_nodup hd).symm
    _ ≤ L.toFinset.card := Finset.card_le_card hsub
    _ ≤ L.length := List.toFinset_card_le L

/-- The two no-op branches of `handle_high_cardinality`: an empty series, or
a distinct-value count within the limit. -/
theorem hhc_noop (s : List Cell) (m : Int) (h1 : 1 ≤ m)
    (h2 : s = [] ∨ (nunique s : Int) ≤ m) :
    handle_high_cardinality s m = Except.ok (s, false) := by
  unfold handle_high_cardinality
  rw [if_neg (by omega)]
  by_cases he : s.isEmpty
  · rw [if_pos he]
  · rw [if_neg he]
    rcases h2 with h2 | h2
    · subst h2; simp at he
    · rw [if_pos h2]

/-- The truncating branch of `handle_high_cardinality`: every cell whose
value is not among the kept top categories (nulls included) is rewritten to
the literal "Other". -/
theorem hhc_truncate (s : List Cell) (m : Int) (h1 : 1 ≤ m) (h2 : s ≠ [])
    (h3 : m < (nunique s : Int)) :
    handle_high_cardinality s m =
      Except.ok
        (s.map (fun c => if isinCell (topCategories s m) c then c else some "Other"),
         true) := by
  unfold handle_high_cardinality
  rw [if_neg (by omega), if_neg (by simpa [List.isEmpty_iff] using h2),
      if_neg (by omega)]

/-- Pairs of a list zipped with its own image under `f` are `(a, f a)`
pairs. -/
theorem zip_map_eq {α : Type} (f : α → α) :
    ∀ (l : List α), ∀ p ∈ l.zip (l.map f), p.2 = f p.1 := by
  intro l
  induction l with
  | nil => intro p hp; simp at hp
  | cons a rest ih =>
    intro p hp
    rw [List.map_cons, List.zip_cons_cons] at hp
    rcases List.mem_cons.mp hp with hp | hp
    · subst hp; rfl
    · exact ih p hp

/-- The kept-category list never exceeds `max_categories - 1` entries. -/
theorem length_topCategories_le (s : List Cell) (m : Int) :
    (topCategories s m).length ≤ (m - 1).toNat := by
  rw [topCategories]
  by_cases hm : m = 1
  · rw [if_pos hm]; simp
  · rw [if_neg hm, List.length_map]
    exact List.length_take_le _ _

/-- For a valid `max_categories` the reducer always returns a value (the
`ValueError` branch is the only failing one). -/
theorem hhc_ok (s : List Cell) (m : Int) (h : 1 ≤ m) :
    ∃ r, handle_high_cardinality s m = Except.ok r := by
  unfold handle_high_cardinality
  rw [if_neg (by omega)]
  by_cases he : s.isEmpty
  · rw [if_pos he]; exact ⟨_, rfl⟩
  · rw [if_neg he]
    by_cases hn : (nunique s : Int) ≤ m
    · rw [if_pos hn]; exact ⟨_, rfl⟩
    · rw [if_neg hn]; exact ⟨_, rfl⟩

/-! ## Claims about the CardinalityReducer -/

/-- C6: `handle_high_cardinality` fails with the `InvalidParameter`
(`ValueError`) exactly when `max_categories < 1`: for `max_categories < 1`
it raises before transforming anything, and for `max_categories ≥ 1` the
failure branch is never taken (the call returns a value). -/
theorem C6_invalid_max_categories (s : List Cell) (m : Int) :
    (m < 1 → handle_high_cardinality s m = Except.error errMaxCategories) ∧
    (1 ≤ m → ∃ r, handle_high_cardinality s m = Except.ok r) := by
  constructor
  · intro h
    unfold handle_high_cardinality
    rw [if_pos h]
  · intro h
    exact hhc_ok s m h

theorem C6_invalid_max_categories_witness :
    handle_high_cardinality [some "A"] 0 = Except.error errMaxCategories ∧
    ∃ r, handle_high_cardinality [some "A"] 20 = Except.ok r :=
  ⟨(C6_invalid_max_categories [some "A"] 0).1 (by decide),
   (C6_invalid_max_categories [some "A"] 20).2 (by decide)⟩

/-- C5: for an empty column, or a column whose distinct-value count is at
most `max_categories` (with `max_categories ≥ 1`), the reducer is a no-op:
it returns the input column value-for-value unchanged with
`was_truncated = false`. -/
theorem C5_noop_within_limit (s : List Cell) (m : Int) (h1 : 1 ≤ m)
    (h2 : s = [] ∨ (nunique s : Int) ≤ m) :
    handle_high_cardinality s m = Except.ok (s, false) :=
  hhc_noop s m h1 h2

theorem C5_noop_within_limit_witness :
    handle_high_cardinality [some "A", some "B", none] 2 =
      Except.ok ([some "A", some "B", none], false) :=
  C5_noop_within_limit [some "A", some "B", none] 2 (by decide)
    (Or.inr (by decide))

/-- C4 is false as stated: with `max_categories = 1` the non-empty column
["A"] has a single distinct value, so the `nunique <= max_categories` no-op
branch returns it unchanged — its only value is "A", not "Other". -/
theorem C4_counterexample :
    handle_high_cardinality [some "A"] 1 = Except.ok ([some "A"], false) ∧
    (some "A" : Cell) ≠ some "Other" :=
  ⟨rfl, by decide⟩

/-- C4 amended: with `max_categories = 1` and a column having at least two
distinct non-null values, every output value is the literal "Other" (and
truncation is reported); a non-empty column with at most one distinct
non-null value is instead returned unchanged by the no-op branch. -/
theorem C4_collapse_all (s : List Cell) (h2 : 1 < nunique s) :
    handle_high_cardinality s 1 =
      Except.ok (s.map (fun _ => some "Other"), true) := by
  have hne : s ≠ [] := by
    intro h
    subst h
    have h0 : nunique ([] : List Cell) = 0 := rfl
    omega
  have heq := hhc_truncate s 1 (by omega) hne (by omega)
  rw [heq]
  have hmap : (fun c : Cell =>
      if isinCell (topCategories s 1) c then c else some "Other")
      = fun _ : Cell => some "Other" := by
    funext c
    cases c with
    | none => rfl
    | some v => simp [isinCell, topCategories]
  rw [hmap]

theorem C4_collapse_all_witness :
    handle_high_cardinality [some "A", some "B", some "A"] 1 =
      Except.ok ([some "Other", some "Other", some "Other"], true) := by
  have h := C4_collapse_all [some "A", some "B", some "A"] (by decide)
  simpa using h

/-- Members of the kept-category list are frequency-maximal: any distinct
value of the series outside the list occurs at most as often as any kept
value.  This is the `value_counts().nlargest(k)` ranking property. -/
theorem topCategories_dominate (s : List Cell) (m : Int) :
    ∀ v ∈ topCategories s m, ∀ w : String, some w ∈ s →
      w ∉ topCategories s m → countOcc s w ≤ countOcc s v := by
  intro v hv w hws hwn
  by_cases hm : m = 1
  · rw [topCategories, if_pos hm] at hv
    simp at hv
  · rw [topCategories, if_neg hm] at hv hwn
    obtain ⟨p, hp, hp1⟩ := List.mem_map.mp hv
    have hpcount : p.2 = countOcc s v := by
      have := (mem_value_counts s p).mp (List.mem_of_mem_take hp)
      rw [← hp1]
      exact this.2
    have hwvc : (w, countOcc s w) ∈ value_counts s :=
      (mem_value_counts s (w, countOcc s w)).mpr ⟨hws, rfl⟩
    have hsplit := List.take_append_drop ((m - 1).toNat) (value_counts s)
    have hwdrop : (w, countOcc s w) ∈ (value_counts s).drop (m - 1).toNat := by
      rcases List.mem_append.mp (by rw [hsplit]; exact hwvc) with hmem | hmem
      · exact absurd (List.mem_map.mpr ⟨(w, countOcc s w), hmem, rfl⟩) hwn
      · exact hmem
    have hsorted : ((value_counts s).take ((m - 1).toNat) ++
        (value_counts s).drop ((m - 1).toNat)).Pairwise countGE := by
      rw [hsplit]
      exact value_counts_sorted s
    have hrel := (List.pairwise_append.mp hsorted).2.2 p hp (w, countOcc s w) hwdrop
    have : countOcc s w ≤ p.2 := hrel
    omega

/-- When truncation occurs, there are exactly `max_categories - 1` kept
categories. -/
theorem length_topCategories (s : List Cell) (m : Int) (h1 : 2 ≤ m)
    (h2 : m < (nunique s : Int)) :
    (topCategories s m).length = (m - 1).toNat := by
  rw [topCategories, if_neg (by omega), List.length_map, List.length_take,
      length_value_counts]
  omega

/-- Kept categories are actual values of the series. -/
theorem topCategories_mem (s : List Cell) (m : Int) :
    ∀ v ∈ topCategories s m, some v ∈ s := by
  intro v hv
  by_cases hm : m = 1
  · rw [topCategories, if_pos hm] at hv
    simp at hv
  · rw [topCategories, if_neg hm] at hv
    obtain ⟨p, hp, hp1⟩ := List.mem_map.mp hv
    have hpv := (mem_value_counts s p).mp (List.mem_of_mem_take hp)
    rw [← hp1]
    exact hpv.1

/-- C1: when the distinct-value count of a non-empty column exceeds
`max_categories ≥ 2`, `handle_high_cardinality` reports truncation, keeps
exactly the `max_categories - 1` most frequent values verbatim (positions
holding a kept value are unchanged), relabels every other position to the
literal "Other", and the kept values are actual column values each at least
as frequent as any relabeled value. -/
theorem C1_truncation (s : List Cell) (m : Int) (h1 : 2 ≤ m) (h2 : s ≠ [])
    (h3 : m < (nunique s : Int)) :
    handle_high_cardinality s m =
      Except.ok
        (s.map (fun c => if isinCell (topCategories s m) c then c else some "Other"),
         true) ∧
    (∀ p ∈ s.zip (s.map (fun c =>
        if isinCell (topCategories s m) c then c else some "Other")),
      (isinCell (topCategories s m) p.1 = true → p.2 = p.1) ∧
      (isinCell (topCategories s m) p.1 = false → p.2 = some "Other")) ∧
    (topCategories s m).length = (m - 1).toNat ∧
    (∀ v ∈ topCategories s m, some v ∈ s) ∧
    (∀ v ∈ topCategories s m, ∀ w : String, some w ∈ s →
      w ∉ topCategories s m → countOcc s w ≤ countOcc s v) := by
  refine ⟨hhc_truncate s m (by omega) h2 h3, ?_, length_topCategories s m h1 h3,
    topCategories_mem s m, topCategories_dominate s m⟩
  intro p hp
  have heq := zip_map_eq
    (fun c => if isinCell (topCategories s m) c then c else some "Other") s p hp
  constructor
  · intro hin
    rw [heq]
    simp [hin]
  · intro hout
    rw [heq]
    simp [hout]

/-- Scenario A input column of C1. -/
def scenarioA : List Cell :=
  [some "A", some "A", some "A", some "A", some "A",
   some "B", some "B", some "B", some "B",
   some "C", some "C", some "C",
   some "D", some "D", some "E"]

/-- Expected transformed column of Scenario A with `max_categories = 3`. -/
def scenarioAReduced : List Cell :=
  [some "A", some "A", some "A", some "A", some "A",
   some "B", some "B", some "B", some "B",
   some "Other", some "Other", some "Other",
   some "Other", some "Other", some "Other"]

theorem C1_truncation_witness :
    (handle_high_cardinality scenarioA 3 =
      Except.ok
        (scenarioA.map (fun c =>
          if isinCell (topCategories scenarioA 3) c then c else some "Other"),
         true) ∧
    (∀ p ∈ scenarioA.zip (scenarioA.map (fun c =>
        if isinCell (topCategories scenarioA 3) c then c else some "Other")),
      (isinCell (topCategories scenarioA 3) p.1 = true → p.2 = p.1) ∧
      (isinCell (topCategories scenarioA 3) p.1 = false → p.2 = some "Other")) ∧
    (topCategories scenarioA 3).length = ((3 : Int) - 1).toNat ∧
    (∀ v ∈ topCategories scenarioA 3, some v ∈ scenarioA) ∧
    (∀ v ∈ topCategories scenarioA 3, ∀ w : String, some w ∈ scenarioA →
      w ∉ topCategories scenarioA 3 → countOcc scenarioA w ≤ countOcc scenarioA v)) ∧
    handle_high_cardinality scenarioA 3 = Except.ok (scenarioAReduced, true) ∧
    countOcc scenarioAReduced "A" = 5 ∧
    countOcc scenarioAReduced "B" = 4 ∧
    countOcc scenarioAReduced "Other" = 6 ∧
    nunique scenarioAReduced = 3 :=
  ⟨C1_truncation scenarioA 3 (by decide) (by decide) (by decide),
   rfl, rfl, rfl, rfl, rfl⟩

/-- C2: re-applying the reducer with the same `max_categories ≥ 1` to its own
output is a no-op: the transformed column comes back value-for-value
unchanged with `was_truncated = false`. -/
theorem C2_idempotent (s : List Cell) (m : Int) (h : 1 ≤ m)
    (s' : List Cell) (t : Bool)
    (happ : handle_high_cardinality s m = Except.ok (s', t)) :
    handle_high_cardinality s' m = Except.ok (s', false) := by
  unfold handle_high_cardinality at happ
  rw [if_neg (by omega)] at happ
  by_cases he : s.isEmpty
  · rw [if_pos he] at happ
    rw [Except.ok.injEq, Prod.mk.injEq] at happ
    obtain ⟨hs, _⟩ := happ
    subst hs
    exact hhc_noop s m h (Or.inl (by simpa [List.isEmpty_iff] using he))
  · rw [if_neg he] at happ
    by_cases hn : (nunique s : Int) ≤ m
    · rw [if_pos hn] at happ
      rw [Except.ok.injEq, Prod.mk.injEq] at happ
      obtain ⟨hs, _⟩ := happ
      subst hs
      exact hhc_noop s m h (Or.inr hn)
    · rw [if_neg hn] at happ
      rw [Except.ok.injEq, Prod.mk.injEq] at happ
      obtain ⟨hs, _⟩ := happ
      have hsub : ∀ w : String, some w ∈ s' →
          w ∈ topCategories s m ++ ["Other"] := by
        intro w hw
        rw [← hs] at hw
        obtain ⟨c, _, hc⟩ := List.mem_map.mp hw
        by_cases hin : isinCell (topCategories s m) c
        · rw [if_pos hin] at hc
          cases c with
          | none => simp [isinCell] at hin
          | some v =>
            rw [Option.some.injEq] at hc
            subst hc
            have : v ∈ topCategories s m := by simpa [isinCell] using hin
            exact List.mem_append.mpr (Or.inl this)
        · rw [if_neg hin] at hc
          rw [Option.some.injEq] at hc
          subst hc
          exact List.mem_append.mpr (Or.inr (by simp))
      have hlen := nunique_le_of_subset s' (topCategories s m ++ ["Other"]) hsub
      have hlen2 : (topCategories s m ++ ["Other"]).length =
          (topCategories s m).length + 1 := by simp
      have htop := length_topCategories_le s m
      exact hhc_noop s' m h (Or.inr (by omega))

theorem C2_idempotent_witness :
    handle_high_cardinality [some "A", some "A", some "B", some "C"] 2 =
      Except.ok ([some "A", some "A", some "Other", some "Other"], true) ∧
    handle_high_cardinality [some "A", some "A", some "Other", some "Other"] 2 =
      Except.ok ([some "A", some "A", some "Other", some "Other"], false) :=
  ⟨rfl,
   C2_idempotent [some "A", some "A", some "B", some "C"] 2 (by decide)
     [some "A", some "A", some "Other", some "Other"] true rfl⟩

/-- C10: when the distinct non-null value count exceeds `max_categories`,
null entries are folded into the "Other" bucket (every position that held a
null holds "Other" afterwards); when no truncation occurs, the column —
nulls included — is returned unchanged. -/
theorem C10_nulls (s : List Cell) (m : Int) (h1 : 1 ≤ m) :
    (m < (nunique s : Int) →
      ∃ s', handle_high_cardinality s m = Except.ok (s', true) ∧
        ∀ p ∈ s.zip s', p.1 = none → p.2 = some "Other") ∧
    ((nunique s : Int) ≤ m →
      handle_high_cardinality s m = Except.ok (s, false)) := by
  constructor
  · intro h3
    have hne : s ≠ [] := by
      intro h
      subst h
      have h0 : nunique ([] : List Cell) = 0 := rfl
      omega
    refine ⟨_, hhc_truncate s m h1 hne h3, ?_⟩
    intro p hp hp1
    have heq := zip_map_eq
      (fun c => if isinCell (topCategories s m) c then c else some "Other") s p hp
    rw [hp1] at heq
    simpa [isinCell] using heq
  · intro h3
    exact hhc_noop s m h1 (Or.inr h3)

theorem C10_nulls_witness :
    ∃ s', handle_high_cardinality [some "A", none, some "B", some "C"] 2 =
        Except.ok (s', true) ∧
      ∀ p ∈ ([some "A", none, some "B", some "C"] : List Cell).zip s',
        p.1 = none → p.2 = some "Other" :=
  (C10_nulls [some "A", none, some "B", some "C"] 2 (by decide)).1 (by decide)

/-! ## Data model: dataframe columns and configuration schema -/

/-- Semantic kind of a dataframe column, as the renderers select columns:
`df.select_dtypes(include=["number"])` vs
`df.select_dtypes(include=["object", "category"])`. -/
inductive ColKind where
  | numerical : ColKind
  | categorical : ColKind
deriving DecidableEq

/-- A named dataframe column.  Only categorical values flow into the
modelled logic (through the CardinalityReducer); numerical cell contents are
drawn but never influence control flow or artifact names, so `values` of a
numerical column may be arbitrary. -/
structure DFColumn where
  name : String
  kind : ColKind
  values : List Cell
deriving DecidableEq

/-- Column-kind test, as `pd.api.types.is_numeric_dtype` /
`select_dtypes` classify a column. -/
def DFColumn.isNumeric (c : DFColumn) : Bool :=
  match c.kind with
  | ColKind.numerical => true
  | ColKind.categorical => false

/-- schema.py `ProfileStep`. -/
structure ProfileStep where
  enabled : Bool
deriving DecidableEq

/-- schema.py `UnivariateStep`.  The `plot_types` dict is represented by its
two accessed entries: `config_params.get("plot_types", {}).get("numerical", [])`
and the `"categorical"` counterpart. -/
structure UnivariateStep where
  enabled : Bool
  plot_types_numerical : List String
  plot_types_categorical : List String
  max_categories : Int
deriving DecidableEq

/-- schema.py `BivariateStep`. -/
structure BivariateStep where
  enabled : Bool
  target_centric : Bool
  max_categories : Int
deriving DecidableEq

/-- schema.py `MultivariateStep`. -/
structure MultivariateStep where
  enabled : Bool
  correlation_cols : List String
deriving DecidableEq

/-- schema.py `AnalysisStep`: container with one optional entry per step
kind.  (Pydantic validation additionally requires exactly one populated
entry; `Analyzer.run` itself checks all four fields of every step.) -/
structure AnalysisStep where
  profile : Option ProfileStep
  univariate : Option UnivariateStep
  bivariate : Option BivariateStep
  multivariate : Option MultivariateStep
deriving DecidableEq

/-- schema.py `Config`, restricted to the fields `Analyzer.run` reads
(`input_file` and `output_dir` only locate external I/O). -/
structure Config where
  report_title : String
  target_variable : Option String
  analysis_pipeline : List AnalysisStep
deriving DecidableEq

/-! ## Univariate renderer (src/dora/plots/univariate.py) -/

/-- Artifact filename `univariate_{column}_{plot_type}.png`. -/
def univariatePath (column plot_type : String) : String :=
  "univariate_" ++ column ++ "_" ++ plot_type ++ ".png"

/-- Numerical pass of univariate `generate_plots`: for each numerical column
and each entry of `plot_types["numerical"]` the code opens a figure, draws a
histogram or boxplot when the entry is one of those two names (and leaves
the figure blank otherwise), then unconditionally saves the figure and
appends its path — so even an unrecognized plot-type name yields one
artifact per numerical column. -/
def univariateNumericalPaths (df : List DFColumn) (plotTypes : List String) :
    List String :=
  (df.filter (fun c => c.isNumeric)).flatMap
    (fun col => plotTypes.map (fun pt => univariatePath col.name pt))

/-- Categorical pass of univariate `generate_plots`: one barplot artifact
per categorical column when `"barplot"` is listed (any other listed
categorical plot-type name is never consulted); the CardinalityReducer runs
first and its `ValueError` propagates. -/
def univariateCategoricalPaths (p : UnivariateStep) :
    List DFColumn → Except String (List String)
  | [] => Except.ok []
  | col :: rest =>
    if p.plot_types_categorical.contains "barplot" then
      match handle_high_cardinality col.values p.max_categories with
      | Except.error e => Except.error e
      | Except.ok _ =>
        match univariateCategoricalPaths p rest with
        | Except.error e => Except.error e
        | Except.ok paths => Except.ok (univariatePath col.name "barplot" :: paths)
    else univariateCategoricalPaths p rest

/-- Shallow embedding of univariate `generate_plots`: the numerical loop
runs first and cannot raise, then the categorical loop; an exception in the
latter propagates and discards the whole return value. -/
def univariate_generate_plots (df : List DFColumn) (p : UnivariateStep) :
    Except String (List String) :=
  match univariateCategoricalPaths p (df.filter (fun c => !c.isNumeric)) with
  | Except.error e => Except.error e
  | Except.ok catPaths =>
    Except.ok (univariateNumericalPaths df p.plot_types_numerical ++ catPaths)

/-- With a valid `max_categories` the categorical pass never raises. -/
theorem univariateCategoricalPaths_ok (p : UnivariateStep)
    (h : 1 ≤ p.max_categories) (cols : List DFColumn) :
    ∃ paths, univariateCategoricalPaths p cols = Except.ok paths := by
  induction cols with
  | nil => exact ⟨[], rfl⟩
  | cons col rest ih =>
    obtain ⟨paths, hpaths⟩ := ih
    unfold univariateCategoricalPaths
    by_cases hb : p.plot_types_categorical.contains "barplot"
    · rw [if_pos hb]
      obtain ⟨r0, hr0⟩ := hhc_ok col.values p.max_categories h
      rw [hr0, hpaths]
      exact ⟨_, rfl⟩
    · rw [if_neg hb]
      exact ⟨paths, hpaths⟩

/-- The categorical pass reads its parameters only through
`max_categories` and the test `"barplot" in plot_types["categorical"]`. -/
theorem univariateCategoricalPaths_congr (p q : UnivariateStep)
    (hm : q.max_categories = p.max_categories)
    (hb : q.plot_types_categorical.contains "barplot" =
      p.plot_types_categorical.contains "barplot") (cols : List DFColumn) :
    univariateCategoricalPaths q cols = univariateCategoricalPaths p cols := by
  induction cols with
  | nil => rfl
  | cons col rest ih =>
    unfold univariateCategoricalPaths
    rw [hm, hb, ih]

/-- Every listed numerical plot-type name contributes an artifact for every
numerical column. -/
theorem univariateNumericalPaths_mem (df : List DFColumn) (pts : List String)
    (col : DFColumn) (hcol : col ∈ df) (hnum : col.isNumeric = true)
    (pt : String) (hpt : pt ∈ pts) :
    univariatePath col.name pt ∈ univariateNumericalPaths df pts := by
  unfold univariateNumericalPaths
  refine List.mem_flatMap.mpr ⟨col, List.mem_filter.mpr ⟨hcol, hnum⟩, ?_⟩
  exact List.mem_map.mpr ⟨pt, hpt, rfl⟩

/-- C9 fails as stated: an unrecognized numerical plot-type name such as
"violin" still produces (and returns) an artifact — the code opens a figure,
matches neither "histogram" nor "boxplot", yet saves the blank figure and
appends its path to the returned list. -/
theorem C9_counterexample :
    univariate_generate_plots [⟨"age", ColKind.numerical, []⟩]
        ⟨true, ["violin"], [], 20⟩ =
      Except.ok ["univariate_age_violin.png"] ∧
    ("violin" ∈ (["histogram", "boxplot"] : List String) → False) :=
  ⟨rfl, by decide⟩

/-- C9 amended: unknown plot-type names never cause an error, and unknown
entries of `plot_types["categorical"]` contribute no artifact (only the
presence of "barplot" is consulted); but every entry of
`plot_types["numerical"]` — recognized or not — contributes one artifact per
numerical column. -/
theorem C9_unknown_plot_types (df : List DFColumn) (p : UnivariateStep)
    (h : 1 ≤ p.max_categories) :
    (∃ paths, univariate_generate_plots df p = Except.ok paths) ∧
    (∀ q : UnivariateStep, q.plot_types_numerical = p.plot_types_numerical →
      q.max_categories = p.max_categories →
      q.plot_types_categorical.contains "barplot" =
        p.plot_types_categorical.contains "barplot" →
      univariate_generate_plots df q = univariate_generate_plots df p) ∧
    (∀ paths, univariate_generate_plots df p = Except.ok paths →
      ∀ col ∈ df, col.isNumeric = true → ∀ pt ∈ p.plot_types_numerical,
        univariatePath col.name pt ∈ paths) := by
  obtain ⟨cpaths, hc⟩ :=
    univariateCategoricalPaths_ok p h (df.filter (fun c => !c.isNumeric))
  refine ⟨?_, ?_, ?_⟩
  · unfold univariate_generate_plots
    rw [hc]
    exact ⟨_, rfl⟩
  · intro q h1 h2 h3
    unfold univariate_generate_plots
    rw [univariateCategoricalPaths_congr p q h2 h3, h1]
  · intro paths hpaths col hcol hnum pt hpt
    unfold univariate_generate_plots at hpaths
    rw [hc, Except.ok.injEq] at hpaths
    rw [← hpaths]
    exact List.mem_append.mpr
      (Or.inl (univariateNumericalPaths_mem df p.plot_types_numerical col hcol hnum pt hpt))

/-- Dataset of the C9 witness: one numerical and one categorical column. -/
def dfC9 : List DFColumn :=
  [⟨"age", ColKind.numerical, []⟩,
   ⟨"sex", ColKind.categorical, [some "m", some "f", some "m"]⟩]

/-- Univariate parameters of the C9 witness, listing one unknown numerical
plot type ("violin") and one unknown categorical plot type ("pie"). -/
def pC9 : UnivariateStep := ⟨true, ["histogram", "violin"], ["barplot", "pie"], 2⟩

theorem C9_unknown_plot_types_witness :
    ((∃ paths, univariate_generate_plots dfC9 pC9 = Except.ok paths) ∧
     (∀ q : UnivariateStep, q.plot_types_numerical = pC9.plot_types_numerical →
       q.max_categories = pC9.max_categories →
       q.plot_types_categorical.contains "barplot" =
         pC9.plot_types_categorical.contains "barplot" →
       univariate_generate_plots dfC9 q = univariate_generate_plots dfC9 pC9) ∧
     (∀ paths, univariate_generate_plots dfC9 pC9 = Except.ok paths →
       ∀ col ∈ dfC9, col.isNumeric = true → ∀ pt ∈ pC9.plot_types_numerical,
         univariatePath col.name pt ∈ paths)) ∧
    univariate_generate_plots dfC9 pC9 =
      Except.ok ["univariate_age_histogram.png", "univariate_age_violin.png",
                 "univariate_sex_barplot.png"] :=
  ⟨C9_unknown_plot_types dfC9 pC9 (by decide), rfl⟩

/-! ## Bivariate and multivariate renderers (src/dora/plots/) -/

/-- Artifact filename `bivariate_{feature}_vs_{target}.png`. -/
def bivariatePath (feature target : String) : String :=
  "bivariate_" ++ feature ++ "_vs_" ++ target ++ ".png"

/-- Feature loop of bivariate `generate_plots`: a numerical feature against
a numerical target yields a scatter artifact; a categorical feature against
a numerical target first runs the CardinalityReducer (whose `ValueError`
propagates) and yields a grouped-box artifact; every other kind combination
is skipped with no artifact and no error. -/
def bivariateFeatureLoop (target : String) (targetNumeric : Bool) (m : Int) :
    List DFColumn → Except String (List String)
  | [] => Except.ok []
  | f :: rest =>
    if f.isNumeric && targetNumeric then
      match bivariateFeatureLoop target targetNumeric m rest with
      | Except.error e => Except.error e
      | Except.ok paths => Except.ok (bivariatePath f.name target :: paths)
    else if !f.isNumeric && targetNumeric then
      match handle_high_cardinality f.values m with
      | Except.error e => Except.error e
      | Except.ok _ =>
        match bivariateFeatureLoop target targetNumeric m rest with
        | Except.error e => Except.error e
        | Except.ok paths => Except.ok (bivariatePath f.name target :: paths)
    else bivariateFeatureLoop target targetNumeric m rest

/-- Shallow embedding of bivariate `generate_plots`: with
`target_centric` false it returns the empty list before touching the target;
otherwise indexing the dataframe with a missing (or absent) target name
raises `KeyError`, and the features are all columns other than the target. -/
def bivariate_generate_plots (df : List DFColumn) (target_column : Option String)
    (p : BivariateStep) : Except String (List String) :=
  if p.target_centric = false then Except.ok []
  else
    match target_column with
    | none => Except.error "KeyError"
    | some tname =>
      match df.find? (fun c => c.name == tname) with
      | none => Except.error "KeyError"
      | some tcol =>
        bivariateFeatureLoop tname tcol.isNumeric p.max_categories
          (df.filter (fun c => !(c.name == tname)))

/-- Shallow embedding of multivariate `generate_plots`: the selected columns
are `correlation_cols` when non-empty (a listed name missing from the
dataframe raises `KeyError`), else all numerical columns; fewer than two
selected columns yields no artifact, otherwise exactly the one heatmap
artifact. -/
def multivariate_generate_plots (df : List DFColumn) (p : MultivariateStep) :
    Except String (List String) :=
  if p.correlation_cols.isEmpty then
    if (df.filter (fun c => c.isNumeric)).length < 2 then Except.ok []
    else Except.ok ["multivariate_correlation_matrix.png"]
  else
    if p.correlation_cols.all (fun n => df.any (fun c => c.name == n)) then
      if p.correlation_cols.length < 2 then Except.ok []
      else Except.ok ["multivariate_correlation_matrix.png"]
    else Except.error "KeyError"

/-! ## Orchestrator (src/dora/analyzer.py) -/

/-- Payload stored under the `"profile"` key of `report_data`; its content
is computed by `generate_profile` (src/dora/profiling.py), a collaborator
whose output the orchestrator only stores, so it is represented as an
uninterpreted record of key/value pairs. -/
abbrev ProfilePayload := List (String × String)

/-- Accumulator `self.report_data`: a dict with the fixed title entry and
one optional entry per step-kind key. -/
structure ReportData where
  title : String
  profile : Option ProfilePayload
  univariate_plots : Option (List String)
  bivariate_plots : Option (List String)
  multivariate_plots : Option (List String)
deriving DecidableEq

/-- The four step kinds of the pipeline. -/
inductive StepKind where
  | profile | univariate | bivariate | multivariate
deriving DecidableEq, BEq

/-- Log lines emitted by `Analyzer.run` that the claims mention: the
"--- Running Step: ... ---" banner and the missing-target warning. -/
inductive LogEntry where
  | runningStep (k : StepKind)
  | missingTargetWarning
deriving DecidableEq

/-- Observable state of one `Analyzer` instance during `run()`: the
report-data accumulator, the log, the ordered trace of dispatched step
executions, and whether `_generate_report` was reached. -/
structure RunState where
  report : ReportData
  logs : List LogEntry
  trace : List StepKind
  reportGenerated : Bool
deriving DecidableEq

/-- The four collaborator calls `Analyzer.run` dispatches to, with the
dataframe and the charts directory already bound (both are fields of the
`Analyzer` instance).  `Except.error` models an exception escaping the
collaborator. -/
structure Renderers where
  profileFn : Except String ProfilePayload
  univariateFn : UnivariateStep → Except String (List String)
  bivariateFn : Option String → BivariateStep → Except String (List String)
  multivariateFn : MultivariateStep → Except String (List String)

/-- Renderers built from the modelled plot modules over a fixed dataframe,
as `Analyzer.run` wires them; the profiling payload stays a parameter. -/
def mkRenderers (df : List DFColumn) (profilePayload : ProfilePayload) :
    Renderers :=
  { profileFn := Except.ok profilePayload
    univariateFn := fun up => univariate_generate_plots df up
    bivariateFn := fun t bp => bivariate_generate_plots df t bp
    multivariateFn := fun mp => multivariate_generate_plots df mp }

/-- Python truthiness of `self.config.target_variable`: `None` and the empty
string are both falsy in `if params.get("target_centric") and not target`. -/
def targetMissing : Option String → Bool
  | none => true
  | some t => t.isEmpty

/-- Sequence two stateful computations; the second runs only when the first
did not raise.  An uncaught exception keeps the state reached so far (the
already-mutated `self.report_data`) and aborts everything after it. -/
def andThenRun (x : RunState × Option String)
    (f : RunState → RunState × Option String) : RunState × Option String :=
  match x with
  | (st, none) => f st
  | (st, some e) => (st, some e)

/-- The `if step.profile and step.profile.enabled:` dispatch of
`Analyzer.run`: log the banner, call `generate_profile`, store its result
under the `"profile"` key. -/
def dispatchProfile (r : Renderers) (st : RunState) (step : AnalysisStep) :
    RunState × Option String :=
  match step.profile with
  | none => (st, none)
  | some ps =>
    if ps.enabled then
      let st1 := { st with
        logs := st.logs ++ [LogEntry.runningStep StepKind.profile],
        trace := st.trace ++ [StepKind.profile] }
      match r.profileFn with
      | Except.ok payload =>
        ({ st1 with report := { st1.report with profile := some payload } }, none)
      | Except.error e => (st1, some e)
    else (st, none)

/-- The `if step.univariate and step.univariate.enabled:` dispatch. -/
def dispatchUnivariate (r : Renderers) (st : RunState) (step : AnalysisStep) :
    RunState × Option String :=
  match step.univariate with
  | none => (st, none)
  | some us =>
    if us.enabled then
      let st1 := { st with
        logs := st.logs ++ [LogEntry.runningStep StepKind.univariate],
        trace := st.trace ++ [StepKind.univariate] }
      match r.univariateFn us with
      | Except.ok paths =>
        ({ st1 with
           report := { st1.report with univariate_plots := some paths } }, none)
      | Except.error e => (st1, some e)
    else (st, none)

/-- The `if step.bivariate and step.bivariate.enabled:` dispatch, including
the `_run_bivariate` guard: with `target_centric` set and a falsy target the
step logs a warning and returns without writing the key. -/
def dispatchBivariate (r : Renderers) (target : Option String) (st : RunState)
    (step : AnalysisStep) : RunState × Option String :=
  match step.bivariate with
  | none => (st, none)
  | some bs =>
    if bs.enabled then
      let st1 := { st with
        logs := st.logs ++ [LogEntry.runningStep StepKind.bivariate],
        trace := st.trace ++ [StepKind.bivariate] }
      if bs.target_centric && targetMissing target then
        ({ st1 with logs := st1.logs ++ [LogEntry.missingTargetWarning] }, none)
      else
        match r.bivariateFn target bs with
        | Except.ok paths =>
          ({ st1 with
             report := { st1.report with bivariate_plots := some paths } }, none)
        | Except.error e => (st1, some e)
    else (st, none)

/-- The `if step.multivariate and step.multivariate.enabled:` dispatch. -/
def dispatchMultivariate (r : Renderers) (st : RunState) (step : AnalysisStep) :
    RunState × Option String :=
  match step.multivariate with
  | none => (st, none)
  | some ms =>
    if ms.enabled then
      let st1 := { st with
        logs := st.logs ++ [LogEntry.runningStep StepKind.multivariate],
        trace := st.trace ++ [StepKind.multivariate] }
      match r.multivariateFn ms with
      | Except.ok paths =>
        ({ st1 with
           report := { st1.report with multivariate_plots := some paths } }, none)
      | Except.error e => (st1, some e)
    else (st, none)

/-- One iteration of the `for step in pipeline:` loop: the four dispatches
run in source order, each only when no earlier one raised. -/
def execStep (r : Renderers) (target : Option String) (st : RunState)
    (step : AnalysisStep) : RunState × Option String :=
  andThenRun (dispatchProfile r st step) (fun st1 =>
    andThenRun (dispatchUnivariate r st1 step) (fun st2 =>
      andThenRun (dispatchBivariate r target st2 step) (fun st3 =>
        dispatchMultivariate r st3 step)))

/-- The `for step in pipeline:` loop itself. -/
def execPipeline (r : Renderers) (target : Option String) :
    RunState → List AnalysisStep → RunState × Option String
  | st, [] => (st, none)
  | st, step :: rest =>
    andThenRun (execStep r target st step) (fun st1 =>
      execPipeline r target st1 rest)

/-- Initial run state: `self.report_data = {"title": ...}` from `__init__`,
nothing logged, nothing executed, no report generated. -/
def initState (cfg : Config) : RunState :=
  { report := { title := cfg.report_title, profile := none,
                univariate_plots := none, bivariate_plots := none,
                multivariate_plots := none },
    logs := [], trace := [], reportGenerated := false }

/-- Shallow embedding of `Analyzer.run`: the step loop has no exception
handling, so a renderer exception aborts the loop and propagates to the
caller; `_generate_report` runs only after every step finished. -/
def Analyzer.run (r : Renderers) (cfg : Config) : RunState × Option String :=
  match execPipeline r cfg.target_variable (initState cfg) cfg.analysis_pipeline with
  | (st, none) => ({ st with reportGenerated := true }, none)
  | (st, some e) => (st, some e)

/-- Does the step carry an enabled entry of the given kind? -/
def stepHasEnabled (k : StepKind) (step : AnalysisStep) : Bool :=
  match k with
  | StepKind.profile =>
    match step.profile with | some p => p.enabled | none => false
  | StepKind.univariate =>
    match step.univariate with | some u => u.enabled | none => false
  | StepKind.bivariate =>
    match step.bivariate with | some b => b.enabled | none => false
  | StepKind.multivariate =>
    match step.multivariate with | some mv => mv.enabled | none => false

/-- The step kinds one pipeline entry dispatches, in source order. -/
def kindsOf (step : AnalysisStep) : List StepKind :=
  (if stepHasEnabled StepKind.profile step then [StepKind.profile] else []) ++
  (if stepHasEnabled StepKind.univariate step then [StepKind.univariate] else []) ++
  (if stepHasEnabled StepKind.bivariate step then [StepKind.bivariate] else []) ++
  (if stepHasEnabled StepKind.multivariate step then [StepKind.multivariate] else [])

/-- All four collaborators return normally on every input. -/
structure TotalRenderers (r : Renderers) : Prop where
  profile_ok : ∃ a, r.profileFn = Except.ok a
  univariate_ok : ∀ s, ∃ a, r.univariateFn s = Except.ok a
  bivariate_ok : ∀ t s, ∃ a, r.bivariateFn t s = Except.ok a
  multivariate_ok : ∀ s, ∃ a, r.multivariateFn s = Except.ok a

/-! ## C3: step failures are not isolated -/

theorem andThenRun_assoc (x : RunState × Option String)
    (f g : RunState → RunState × Option String) :
    andThenRun (andThenRun x f) g =
      andThenRun x (fun st => andThenRun (f st) g) := by
  rcases x with ⟨st, err⟩
  cases err <;> rfl

/-- Executing a concatenated pipeline is executing the first part, then —
only if it did not raise — the second. -/
theorem execPipeline_append (r : Renderers) (target : Option String)
    (l1 l2 : List AnalysisStep) : ∀ st : RunState,
    execPipeline r target st (l1 ++ l2) =
      andThenRun (execPipeline r target st l1)
        (fun st1 => execPipeline r target st1 l2) := by
  induction l1 with
  | nil =>
    intro st
    rfl
  | cons s rest ih =>
    intro st
    show andThenRun (execStep r target st s)
        (fun st1 => execPipeline r target st1 (rest ++ l2)) =
      andThenRun (andThenRun (execStep r target st s)
        (fun st1 => execPipeline r target st1 rest))
        (fun st1 => execPipeline r target st1 l2)
    rw [andThenRun_assoc]
    congr 1
    funext st1
    exact ih st1

theorem dispatchProfile_rg (r : Renderers) (st : RunState) (step : AnalysisStep) :
    (dispatchProfile r st step).1.reportGenerated = st.reportGenerated := by
  unfold dispatchProfile
  split
  · rfl
  · split
    · split <;> rfl
    · rfl

theorem dispatchUnivariate_rg (r : Renderers) (st : RunState) (step : AnalysisStep) :
    (dispatchUnivariate r st step).1.reportGenerated = st.reportGenerated := by
  unfold dispatchUnivariate
  split
  · rfl
  · split
    · split <;> rfl
    · rfl

theorem dispatchBivariate_rg (r : Renderers) (target : Option String)
    (st : RunState) (step : AnalysisStep) :
    (dispatchBivariate r target st step).1.reportGenerated = st.reportGenerated := by
  unfold dispatchBivariate
  split
  · rfl
  · split
    · split
      · rfl
      · split <;> rfl
    · rfl

theorem dispatchMultivariate_rg (r : Renderers) (st : RunState) (step : AnalysisStep) :
    (dispatchMultivariate r st step).1.reportGenerated = st.reportGenerated := by
  unfold dispatchMultivariate
  split
  · rfl
  · split
    · split <;> rfl
    · rfl

theorem andThenRun_rg (b : Bool) (x : RunState × Option String)
    (f : RunState → RunState × Option String)
    (hx : x.1.reportGenerated = b)
    (hf : ∀ st, st.reportGenerated = b → (f st).1.reportGenerated = b) :
    (andThenRun x f).1.reportGenerated = b := by
  rcases x with ⟨st, err⟩
  cases err
  · exact hf st hx
  · exact hx

theorem execStep_rg (r : Renderers) (target : Option String) (st : RunState)
    (step : AnalysisStep) :
    (execStep r target st step).1.reportGenerated = st.reportGenerated := by
  unfold execStep
  apply andThenRun_rg st.reportGenerated _ _ (dispatchProfile_rg r st step)
  intro st1 h1
  apply andThenRun_rg st.reportGenerated _ _
    (by rw [dispatchUnivariate_rg]; exact h1)
  intro st2 h2
  apply andThenRun_rg st.reportGenerated _ _
    (by rw [dispatchBivariate_rg]; exact h2)
  intro st3 h3
  rw [dispatchMultivariate_rg]
  exact h3

/-- The step loop never sets the report-generated flag; only the epilogue of
`run` does. -/
theorem execPipeline_rg (r : Renderers) (target : Option String) :
    ∀ (steps : List AnalysisStep) (st : RunState),
      (execPipeline r target st steps).1.reportGenerated = st.reportGenerated := by
  intro steps
  induction steps with
  | nil => intro st; rfl
  | cons s rest ih =>
    intro st
    show (andThenRun (execStep r target st s)
      (fun st1 => execPipeline r target st1 rest)).1.reportGenerated = _
    apply andThenRun_rg st.reportGenerated _ _ (execStep_rg r target st s)
    intro st1 h1
    rw [ih st1]
    exact h1

/-- C3 amended: `Analyzer.run` has no exception handling around the step
loop.  When executing the pipeline raises, the exception propagates out of
`run` with the state reached so far: any steps appended after the failing
prefix are never executed (they change nothing), and the report is not
generated. -/
theorem C3_exception_propagates (r : Renderers) (cfg : Config)
    (post : List AnalysisStep) (st : RunState) (e : String)
    (h : execPipeline r cfg.target_variable (initState cfg)
      cfg.analysis_pipeline = (st, some e)) :
    Analyzer.run r
      { cfg with analysis_pipeline := cfg.analysis_pipeline ++ post } =
      (st, some e) ∧
    st.reportGenerated = false := by
  have hrg : st.reportGenerated = false := by
    have h2 := execPipeline_rg r cfg.target_variable cfg.analysis_pipeline
      (initState cfg)
    rw [h] at h2
    exact h2
  refine ⟨?_, hrg⟩
  unfold Analyzer.run
  rw [show ({ cfg with analysis_pipeline := cfg.analysis_pipeline ++ post } :
      Config).target_variable = cfg.target_variable from rfl]
  rw [show initState { cfg with analysis_pipeline := cfg.analysis_pipeline ++ post }
      = initState cfg from rfl]
  rw [execPipeline_append r cfg.target_variable cfg.analysis_pipeline post
    (initState cfg), h]
  rfl

/-- Pipeline step running the profiler. -/
def stepProfileOn : AnalysisStep := ⟨some ⟨true⟩, none, none, none⟩

/-- Pipeline step running the univariate renderer with the schema's default
parameters. -/
def stepUnivariateDefault : AnalysisStep :=
  ⟨none, some ⟨true, ["histogram", "boxplot"], ["barplot"], 20⟩, none, none⟩

/-- Pipeline step running the multivariate renderer over all numerical
columns. -/
def stepMultivariateAll : AnalysisStep := ⟨none, none, none, some ⟨true, []⟩⟩

/-- Renderers whose univariate collaborator raises, the scenario quantified
over by C3. -/
def failingUnivariateRenderers : Renderers :=
  { profileFn := Except.ok [("shape", "(5, 4)")]
    univariateFn := fun _ => Except.error "boom"
    bivariateFn := fun t bp => bivariate_generate_plots [] t bp
    multivariateFn := fun mp => multivariate_generate_plots [] mp }

/-- Failing two-step prefix used by the C3 witness. -/
def cfgC3 : Config :=
  { report_title := "EDA Report", target_variable := some "charges",
    analysis_pipeline := [stepProfileOn, stepUnivariateDefault] }

/-- Full three-step pipeline of the C3 counterexample. -/
def cfgC3full : Config :=
  { report_title := "EDA Report", target_variable := some "charges",
    analysis_pipeline := [stepProfileOn, stepUnivariateDefault,
                          stepMultivariateAll] }

/-- C3 fails as stated: when the univariate renderer raises, `run` does not
catch the exception — it escapes, the sibling multivariate step never
executes (its key stays absent and it is never dispatched), and the report
is not generated, instead of the claimed caught-logged-and-continue. -/
theorem C3_counterexample :
    (Analyzer.run failingUnivariateRenderers cfgC3full).2 = some "boom" ∧
    (Analyzer.run failingUnivariateRenderers cfgC3full).1.report.profile.isSome
      = true ∧
    (Analyzer.run failingUnivariateRenderers cfgC3full).1.report.multivariate_plots
      = none ∧
    (Analyzer.run failingUnivariateRenderers cfgC3full).1.trace =
      [StepKind.profile, StepKind.univariate] ∧
    (Analyzer.run failingUnivariateRenderers cfgC3full).1.reportGenerated = false :=
  ⟨rfl, rfl, rfl, rfl, rfl⟩

/-- State in which the C3 witness pipeline aborts. -/
def stC3 : RunState :=
  { report := { title := "EDA Report", profile := some [("shape", "(5, 4)")],
                univariate_plots := none, bivariate_plots := none,
                multivariate_plots := none },
    logs := [LogEntry.runningStep StepKind.profile,
             LogEntry.runningStep StepKind.univariate],
    trace := [StepKind.profile, StepKind.univariate],
    reportGenerated := false }

theorem C3_exception_propagates_witness :
    Analyzer.run failingUnivariateRenderers
      { cfgC3 with
        analysis_pipeline := cfgC3.analysis_pipeline ++ [stepMultivariateAll] } =
      (stC3, some "boom") ∧
    stC3.reportGenerated = false :=
  C3_exception_propagates failingUnivariateRenderers cfgC3 [stepMultivariateAll]
    stC3 "boom" rfl

/-! ## C8: repeated pipeline entries are re-executed -/

theorem count_kindsOf (k : StepKind) (step : AnalysisStep) :
    (kindsOf step).count k = if stepHasEnabled k step then 1 else 0 := by
  unfold kindsOf
  cases k <;> split_ifs <;> rfl

theorem count_flatMap_kindsOf (k : StepKind) :
    ∀ ps : List AnalysisStep,
      (ps.flatMap kindsOf).count k = (ps.filter (stepHasEnabled k)).length := by
  intro ps
  induction ps with
  | nil => rfl
  | cons s rest ih =>
    rw [List.flatMap_cons, List.count_append, count_kindsOf, ih, List.filter_cons]
    by_cases h : stepHasEnabled k s
    · rw [if_pos h, if_pos h]
      simp [Nat.add_comm]
    · rw [if_neg h, if_neg h]
      simp

theorem dispatchProfile_total (r : Renderers) (st : RunState)
    (step : AnalysisStep) (h : ∃ a, r.profileFn = Except.ok a) :
    ∃ st', dispatchProfile r st step = (st', none) ∧
      st'.trace = st.trace ++
        (if stepHasEnabled StepKind.profile step then [StepKind.profile] else []) := by
  obtain ⟨a, ha⟩ := h
  unfold dispatchProfile
  split
  · rename_i heq
    exact ⟨st, rfl, by simp [stepHasEnabled, heq]⟩
  · rename_i ps heq
    split
    · rename_i hen
      rw [ha]
      exact ⟨_, rfl, by simp [stepHasEnabled, heq, hen]⟩
    · rename_i hen
      refine ⟨st, rfl, ?_⟩
      have hfalse : stepHasEnabled StepKind.profile step = false := by
        rw [stepHasEnabled, heq]
        simpa using hen
      rw [hfalse]
      simp

theorem dispatchUnivariate_total (r : Renderers) (st : RunState)
    (step : AnalysisStep) (h : ∀ s, ∃ a, r.univariateFn s = Except.ok a) :
    ∃ st', dispatchUnivariate r st step = (st', none) ∧
      st'.trace = st.trace ++
        (if stepHasEnabled StepKind.univariate step then [StepKind.univariate] else []) := by
  unfold dispatchUnivariate
  split
  · rename_i heq
    exact ⟨st, rfl, by simp [stepHasEnabled, heq]⟩
  · rename_i us heq
    obtain ⟨a, ha⟩ := h us
    split
    · rename_i hen
      rw [ha]
      exact ⟨_, rfl, by simp [stepHasEnabled, heq, hen]⟩
    · rename_i hen
      refine ⟨st, rfl, ?_⟩
      have hfalse : stepHasEnabled StepKind.univariate step = false := by
        rw [stepHasEnabled, heq]
        simpa using hen
      rw [hfalse]
      simp

theorem dispatchBivariate_total (r : Renderers) (target : Option String)
    (st : RunState) (step : AnalysisStep)
    (h : ∀ t s, ∃ a, r.bivariateFn t s = Except.ok a) :
    ∃ st', dispatchBivariate r target st step = (st', none) ∧
      st'.trace = st.trace ++
        (if stepHasEnabled StepKind.bivariate step then [StepKind.bivariate] else []) := by
  unfold dispatchBivariate
  split
  · rename_i heq
    exact ⟨st, rfl, by simp [stepHasEnabled, heq]⟩
  · rename_i bs heq
    obtain ⟨a, ha⟩ := h target bs
    split
    · rename_i hen
      split
      · exact ⟨_, rfl, by simp [stepHasEnabled, heq, hen]⟩
      · rw [ha]
        exact ⟨_, rfl, by simp [stepHasEnabled, heq, hen]⟩
    · rename_i hen
      refine ⟨st, rfl, ?_⟩
      have hfalse : stepHasEnabled StepKind.bivariate step = false := by
        rw [stepHasEnabled, heq]
        simpa using hen
      rw [hfalse]
      simp

theorem dispatchMultivariate_total (r : Renderers) (st : RunState)
    (step : AnalysisStep) (h : ∀ s, ∃ a, r.multivariateFn s = Except.ok a) :
    ∃ st', dispatchMultivariate r st step = (st', none) ∧
      st'.trace = st.trace ++
        (if stepHasEnabled StepKind.multivariate step then [StepKind.multivariate] else []) := by
  unfold dispatchMultivariate
  split
  · rename_i heq
    exact ⟨st, rfl, by simp [stepHasEnabled, heq]⟩
  · rename_i ms heq
    obtain ⟨a, ha⟩ := h ms
    split
    · rename_i hen
      rw [ha]
      exact ⟨_, rfl, by simp [stepHasEnabled, heq, hen]⟩
    · rename_i hen
      refine ⟨st, rfl, ?_⟩
      have hfalse : stepHasEnabled StepKind.multivariate step = false := by
        rw [stepHasEnabled, heq]
        simpa using hen
      rw [hfalse]
      simp

theorem execStep_total (r : Renderers) (hr : TotalRenderers r)
    (target : Option String) (st : RunState) (step : AnalysisStep) :
    ∃ st', execStep r target st step = (st', none) ∧
      st'.trace = st.trace ++ kindsOf step := by
  obtain ⟨st1, hx1, h1t⟩ := dispatchProfile_total r st step hr.profile_ok
  obtain ⟨st2, hx2, h2t⟩ := dispatchUnivariate_total r st1 step hr.univariate_ok
  obtain ⟨st3, hx3, h3t⟩ := dispatchBivariate_total r target st2 step hr.bivariate_ok
  obtain ⟨st4, hx4, h4t⟩ := dispatchMultivariate_total r st3 step hr.multivariate_ok
  refine ⟨st4, ?_, ?_⟩
  · unfold execStep
    rw [hx1]
    show andThenRun (dispatchUnivariate r st1 step) _ = _
    rw [hx2]
    show andThenRun (dispatchBivariate r target st2 step) _ = _
    rw [hx3]
    show dispatchMultivariate r st3 step = _
    exact hx4
  · rw [h4t, h3t, h2t, h1t, kindsOf]
    simp [List.append_assoc]

theorem execPipeline_total_trace (r : Renderers) (hr : TotalRenderers r)
    (target : Option String) :
    ∀ (steps : List AnalysisStep) (st : RunState),
      ∃ st', execPipeline r target st steps = (st', none) ∧
        st'.trace = st.trace ++ steps.flatMap kindsOf := by
  intro steps
  induction steps with
  | nil => intro st; exact ⟨st, rfl, by simp⟩
  | cons s rest ih =>
    intro st
    obtain ⟨st1, hx, ht⟩ := execStep_total r hr target st s
    have hstep : execPipeline r target st (s :: rest) =
        execPipeline r target st1 rest := by
      show andThenRun (execStep r target st s)
        (fun st2 => execPipeline r target st2 rest) = _
      rw [hx]
      rfl
    obtain ⟨st', ihx, iht⟩ := ih st1
    refine ⟨st', by rw [hstep, ihx], ?_⟩
    rw [iht, ht, List.flatMap_cons, List.append_assoc]

/-- C8 amended: `Analyzer.run` deduplicates nothing — every enabled
appearance of a step kind in the pipeline is dispatched, so a kind appearing
`n` times enabled is executed exactly `n` times; only the `report_data`
accumulation is idempotent per step-kind key (each execution overwrites the
same key). -/
theorem C8_every_appearance_runs (r : Renderers) (hr : TotalRenderers r)
    (cfg : Config) (k : StepKind) :
    (Analyzer.run r cfg).2 = none ∧
    (Analyzer.run r cfg).1.trace.count k =
      (cfg.analysis_pipeline.filter (stepHasEnabled k)).length := by
  obtain ⟨st, hx, ht⟩ := execPipeline_total_trace r hr cfg.target_variable
    cfg.analysis_pipeline (initState cfg)
  unfold Analyzer.run
  rw [hx]
  refine ⟨rfl, ?_⟩
  show st.trace.count k = _
  rw [ht]
  show (([] : List StepKind) ++ cfg.analysis_pipeline.flatMap kindsOf).count k = _
  rw [List.nil_append, count_flatMap_kindsOf]

/-- Pipeline of the C8 counterexample: the profile step appears twice. -/
def cfgC8 : Config :=
  { report_title := "EDA Report", target_variable := none,
    analysis_pipeline := [stepProfileOn, stepProfileOn] }

/-- Renderers over the two-column dataframe, used by the C8 counterexample. -/
def renderersC8 : Renderers := mkRenderers dfC9 [("shape", "(3, 2)")]

/-- C8 fails as stated: a pipeline listing the profile step twice dispatches
the profiling component twice in one `run()` — there is no per-kind
deduplication in the loop. -/
theorem C8_counterexample :
    (Analyzer.run renderersC8 cfgC8).1.trace =
      [StepKind.profile, StepKind.profile] ∧
    ((Analyzer.run renderersC8 cfgC8).1.trace.count StepKind.profile ≤ 1 →
      False) :=
  ⟨rfl, by decide⟩

/-- Renderers that always return normally, for the orchestrator witnesses. -/
def renderersOk : Renderers :=
  { profileFn := Except.ok [("shape", "(0, 0)")]
    univariateFn := fun _ => Except.ok []
    bivariateFn := fun _ _ => Except.ok []
    multivariateFn := fun _ => Except.ok [] }

theorem renderersOk_total : TotalRenderers renderersOk :=
  ⟨⟨_, rfl⟩, fun _ => ⟨[], rfl⟩, fun _ _ => ⟨[], rfl⟩, fun _ => ⟨[], rfl⟩⟩

theorem C8_every_appearance_runs_witness :
    (Analyzer.run renderersOk cfgC8).2 = none ∧
    (Analyzer.run renderersOk cfgC8).1.trace.count StepKind.profile =
      (cfgC8.analysis_pipeline.filter (stepHasEnabled StepKind.profile)).length :=
  C8_every_appearance_runs renderersOk renderersOk_total cfgC8 StepKind.profile

/-! ## C7: missing-target bivariate is a planned skip -/

/-- Every enabled bivariate entry of the pipeline is target-centric (the
configuration shape described by the claim and by Scenario C). -/
def bivariateAllTargetCentric (ps : List AnalysisStep) : Bool :=
  ps.all (fun step =>
    match step.bivariate with
    | some bs => !bs.enabled || bs.target_centric
    | none => true)

theorem dispatchProfile_spec (r : Renderers) (st : RunState)
    (step : AnalysisStep) (h : ∃ a, r.profileFn = Except.ok a) :
    ∃ st', dispatchProfile r st step = (st', none) ∧
      st'.report.univariate_plots = st.report.univariate_plots ∧
      st'.report.bivariate_plots = st.report.bivariate_plots ∧
      st'.report.multivariate_plots = st.report.multivariate_plots ∧
      (∃ l, st'.logs = st.logs ++ l) ∧
      (if stepHasEnabled StepKind.profile step then
        st'.report.profile.isSome = true
       else st'.report.profile = st.report.profile) := by
  obtain ⟨a, ha⟩ := h
  unfold dispatchProfile
  split
  · rename_i heq
    exact ⟨st, rfl, rfl, rfl, rfl, ⟨[], by simp⟩, by simp [stepHasEnabled, heq]⟩
  · rename_i ps heq
    split
    · rename_i hen
      rw [ha]
      exact ⟨_, rfl, rfl, rfl, rfl, ⟨_, rfl⟩, by simp [stepHasEnabled, heq, hen]⟩
    · rename_i hen
      refine ⟨st, rfl, rfl, rfl, rfl, ⟨[], by simp⟩, ?_⟩
      have hfalse : stepHasEnabled StepKind.profile step = false := by
        rw [stepHasEnabled, heq]
        simpa using hen
      rw [hfalse]
      simp

theorem dispatchUnivariate_spec (r : Renderers) (st : RunState)
    (step : AnalysisStep) (h : ∀ s, ∃ a, r.univariateFn s = Except.ok a) :
    ∃ st', dispatchUnivariate r st step = (st', none) ∧
      st'.report.profile = st.report.profile ∧
      st'.report.bivariate_plots = st.report.bivariate_plots ∧
      st'.report.multivariate_plots = st.report.multivariate_plots ∧
      (∃ l, st'.logs = st.logs ++ l) ∧
      (if stepHasEnabled StepKind.univariate step then
        st'.report.univariate_plots.isSome = true
       else st'.report.univariate_plots = st.report.univariate_plots) := by
  unfold dispatchUnivariate
  split
  · rename_i heq
    exact ⟨st, rfl, rfl, rfl, rfl, ⟨[], by simp⟩, by simp [stepHasEnabled, heq]⟩
  · rename_i us heq
    obtain ⟨a, ha⟩ := h us
    split
    · rename_i hen
      rw [ha]
      exact ⟨_, rfl, rfl, rfl, rfl, ⟨_, rfl⟩, by simp [stepHasEnabled, heq, hen]⟩
    · rename_i hen
      refine ⟨st, rfl, rfl, rfl, rfl, ⟨[], by simp⟩, ?_⟩
      have hfalse : stepHasEnabled StepKind.univariate step = false := by
        rw [stepHasEnabled, heq]
        simpa using hen
      rw [hfalse]
      simp

theorem dispatchMultivariate_spec (r : Renderers) (st : RunState)
    (step : AnalysisStep) (h : ∀ s, ∃ a, r.multivariateFn s = Except.ok a) :
    ∃ st', dispatchMultivariate r st step = (st', none) ∧
      st'.report.profile = st.report.profile ∧
      st'.report.univariate_plots = st.report.univariate_plots ∧
      st'.report.bivariate_plots = st.report.bivariate_plots ∧
      (∃ l, st'.logs = st.logs ++ l) ∧
      (if stepHasEnabled StepKind.multivariate step then
        st'.report.multivariate_plots.isSome = true
       else st'.report.multivariate_plots = st.report.multivariate_plots) := by
  unfold dispatchMultivariate
  split
  · rename_i heq
    exact ⟨st, rfl, rfl, rfl, rfl, ⟨[], by simp⟩, by simp [stepHasEnabled, heq]⟩
  · rename_i ms heq
    obtain ⟨a, ha⟩ := h ms
    split
    · rename_i hen
      rw [ha]
      exact ⟨_, rfl, rfl, rfl, rfl, ⟨_, rfl⟩, by simp [stepHasEnabled, heq, hen]⟩
    · rename_i hen
      refine ⟨st, rfl, rfl, rfl, rfl, ⟨[], by simp⟩, ?_⟩
      have hfalse : stepHasEnabled StepKind.multivariate step = false := by
        rw [stepHasEnabled, heq]
        simpa using hen
      rw [hfalse]
      simp

/-- With a falsy target, an enabled target-centric bivariate step is a
planned skip: nothing is written to `report_data`, the missing-target
warning is logged, and no exception is raised. -/
theorem dispatchBivariate_skip (r : Renderers) (target : Option String)
    (htm : targetMissing target = true) (st : RunState) (step : AnalysisStep)
    (htc : (match step.bivariate with
      | some bs => !bs.enabled || bs.target_centric
      | none => true) = true) :
    ∃ st', dispatchBivariate r target st step = (st', none) ∧
      st'.report = st.report ∧
      (∃ l, st'.logs = st.logs ++ l) ∧
      (stepHasEnabled StepKind.bivariate step = true →
        LogEntry.missingTargetWarning ∈ st'.logs) := by
  unfold dispatchBivariate
  split
  · rename_i heq
    refine ⟨st, rfl, rfl, ⟨[], by simp⟩, ?_⟩
    rw [stepHasEnabled, heq]
    simp
  · rename_i bs heq
    split
    · rename_i hen
      have htcv : bs.target_centric = true := by
        rw [heq] at htc
        simpa [hen] using htc
      rw [show (bs.target_centric && targetMissing target) = true from by
        rw [htcv, htm]; rfl]
      simp only [if_true]
      refine ⟨_, rfl, rfl, ?_, ?_⟩
      · exact ⟨[LogEntry.runningStep StepKind.bivariate,
          LogEntry.missingTargetWarning], by simp⟩
      · intro _
        simp
    · rename_i hen
      refine ⟨st, rfl, rfl, ⟨[], by simp⟩, ?_⟩
      intro hcontra
      rw [stepHasEnabled, heq] at hcontra
      exact absurd hcontra (by simpa using hen)

theorem execStep_missing (r : Renderers) (hr : TotalRenderers r)
    (target : Option String) (htm : targetMissing target = true)
    (st : RunState) (step : AnalysisStep)
    (htc : (match step.bivariate with
      | some bs => !bs.enabled || bs.target_centric
      | none => true) = true) :
    ∃ st', execStep r target st step = (st', none) ∧
      st'.report.bivariate_plots = st.report.bivariate_plots ∧
      (∃ l, st'.logs = st.logs ++ l) ∧
      (if stepHasEnabled StepKind.profile step then
        st'.report.profile.isSome = true
       else st'.report.profile = st.report.profile) ∧
      (if stepHasEnabled StepKind.univariate step then
        st'.report.univariate_plots.isSome = true
       else st'.report.univariate_plots = st.report.univariate_plots) ∧
      (if stepHasEnabled StepKind.multivariate step then
        st'.report.multivariate_plots.isSome = true
       else st'.report.multivariate_plots = st.report.multivariate_plots) ∧
      (stepHasEnabled StepKind.bivariate step = true →
        LogEntry.missingTargetWarning ∈ st'.logs) := by
  obtain ⟨st1, hx1, u1, b1, m1, ⟨l1, hl1⟩, p1⟩ :=
    dispatchProfile_spec r st step hr.profile_ok
  obtain ⟨st2, hx2, p2, b2, m2, ⟨l2, hl2⟩, u2⟩ :=
    dispatchUnivariate_spec r st1 step hr.univariate_ok
  obtain ⟨st3, hx3, hrep3, ⟨l3, hl3⟩, w3⟩ :=
    dispatchBivariate_skip r target htm st2 step htc
  obtain ⟨st4, hx4, p4, u4, b4, ⟨l4, hl4⟩, m4⟩ :=
    dispatchMultivariate_spec r st3 step hr.multivariate_ok
  refine ⟨st4, ?_, ?_, ?_, ?_, ?_, ?_, ?_⟩
  · unfold execStep
    rw [hx1]
    show andThenRun (dispatchUnivariate r st1 step) _ = _
    rw [hx2]
    show andThenRun (dispatchBivariate r target st2 step) _ = _
    rw [hx3]
    show dispatchMultivariate r st3 step = _
    exact hx4
  · rw [b4, hrep3, b2, b1]
  · refine ⟨l1 ++ (l2 ++ (l3 ++ l4)), ?_⟩
    rw [hl4, hl3, hl2, hl1]
    simp [List.append_assoc]
  · by_cases hp : stepHasEnabled StepKind.profile step = true
    · rw [if_pos hp] at p1 ⊢
      rw [p4, hrep3, p2]
      exact p1
    · rw [if_neg hp] at p1 ⊢
      rw [p4, hrep3, p2, p1]
  · by_cases hu : stepHasEnabled StepKind.univariate step = true
    · rw [if_pos hu] at u2 ⊢
      rw [u4, hrep3]
      exact u2
    · rw [if_neg hu] at u2 ⊢
      rw [u4, hrep3, u2, u1]
  · by_cases hm : stepHasEnabled StepKind.multivariate step = true
    · rw [if_pos hm] at m4 ⊢
      exact m4
    · rw [if_neg hm] at m4 ⊢
      rw [m4, hrep3, m2, m1]
  · intro hb
    rw [hl4]
    exact List.mem_append.mpr (Or.inl (w3 hb))

theorem execPipeline_missing (r : Renderers) (hr : TotalRenderers r)
    (target : Option String) (htm : targetMissing target = true) :
    ∀ (steps : List AnalysisStep),
      bivariateAllTargetCentric steps = true →
      ∀ st : RunState, ∃ st',
        execPipeline r target st steps = (st', none) ∧
        st'.report.bivariate_plots = st.report.bivariate_plots ∧
        (∀ e ∈ st.logs, e ∈ st'.logs) ∧
        (st.report.profile.isSome = true → st'.report.profile.isSome = true) ∧
        (steps.any (stepHasEnabled StepKind.profile) = true →
          st'.report.profile.isSome = true) ∧
        (st.report.univariate_plots.isSome = true →
          st'.report.univariate_plots.isSome = true) ∧
        (steps.any (stepHasEnabled StepKind.univariate) = true →
          st'.report.univariate_plots.isSome = true) ∧
        (st.report.multivariate_plots.isSome = true →
          st'.report.multivariate_plots.isSome = true) ∧
        (steps.any (stepHasEnabled StepKind.multivariate) = true →
          st'.report.multivariate_plots.isSome = true) ∧
        (steps.any (stepHasEnabled StepKind.bivariate) = true →
          LogEntry.missingTargetWarning ∈ st'.logs) := by
  intro steps
  induction steps with
  | nil =>
    intro _ st
    refine ⟨st, rfl, rfl, fun e he => he, fun h => h, ?_, fun h => h, ?_,
      fun h => h, ?_, ?_⟩ <;> simp [List.any_nil]
  | cons s rest ih =>
    intro hall st
    have hall' : (match s.bivariate with
        | some bs => !bs.enabled || bs.target_centric
        | none => true) = true ∧ bivariateAllTargetCentric rest = true := by
      rw [bivariateAllTargetCentric, List.all_cons, Bool.and_eq_true] at hall
      exact hall
    obtain ⟨st1, hx1, hbiv1, ⟨l1, hl1⟩, hp1, hu1, hm1, hw1⟩ :=
      execStep_missing r hr target htm st s hall'.1
    obtain ⟨st', hx', hbiv', hmono', hpk', hpa', huk', hua', hmk', hma', hwa'⟩ :=
      ih hall'.2 st1
    have hstep : execPipeline r target st (s :: rest) =
        execPipeline r target st1 rest := by
      show andThenRun (execStep r target st s)
        (fun st2 => execPipeline r target st2 rest) = _
      rw [hx1]
      rfl
    have hmono1 : ∀ e ∈ st.logs, e ∈ st1.logs := by
      intro e he
      rw [hl1]
      exact List.mem_append.mpr (Or.inl he)
    refine ⟨st', by rw [hstep, hx'], by rw [hbiv', hbiv1], ?_, ?_, ?_, ?_, ?_,
      ?_, ?_, ?_⟩
    · intro e he
      exact hmono' e (hmono1 e he)
    · intro hsome
      apply hpk'
      by_cases hp : stepHasEnabled StepKind.profile s = true
      · rw [if_pos hp] at hp1
        exact hp1
      · rw [if_neg hp] at hp1
        rw [hp1]
        exact hsome
    · intro hany
      rw [List.any_cons, Bool.or_eq_true] at hany
      rcases hany with hany | hany
      · apply hpk'
        rw [if_pos hany] at hp1
        exact hp1
      · exact hpa' hany
    · intro hsome
      apply huk'
      by_cases hu : stepHasEnabled StepKind.univariate s = true
      · rw [if_pos hu] at hu1
        exact hu1
      · rw [if_neg hu] at hu1
        rw [hu1]
        exact hsome
    · intro hany
      rw [List.any_cons, Bool.or_eq_true] at hany
      rcases hany with hany | hany
      · apply huk'
        rw [if_pos hany] at hu1
        exact hu1
      · exact hua' hany
    · intro hsome
      apply hmk'
      by_cases hm : stepHasEnabled StepKind.multivariate s = true
      · rw [if_pos hm] at hm1
        exact hm1
      · rw [if_neg hm] at hm1
        rw [hm1]
        exact hsome
    · intro hany
      rw [List.any_cons, Bool.or_eq_true] at hany
      rcases hany with hany | hany
      · apply hmk'
        rw [if_pos hany] at hm1
        exact hm1
      · exact hma' hany
    · intro hany
      rw [List.any_cons, Bool.or_eq_true] at hany
      rcases hany with hany | hany
      · exact hmono' _ (hw1 hany)
      · exact hwa' hany

/-- C7 amended: when no target is configured and the pipeline's enabled
bivariate steps are all target-centric, the run completes, the bivariate
step is a planned skip (missing-target warning logged, `bivariate_plots` key
absent), and every other enabled step kind still contributes its key. -/
theorem C7_missing_target (r : Renderers) (hr : TotalRenderers r) (cfg : Config)
    (ht : targetMissing cfg.target_variable = true)
    (htc : bivariateAllTargetCentric cfg.analysis_pipeline = true)
    (hbv : cfg.analysis_pipeline.any (stepHasEnabled StepKind.bivariate) = true) :
    ∃ st, Analyzer.run r cfg = (st, none) ∧
      st.reportGenerated = true ∧
      st.report.bivariate_plots = none ∧
      LogEntry.missingTargetWarning ∈ st.logs ∧
      (cfg.analysis_pipeline.any (stepHasEnabled StepKind.profile) = true →
        st.report.profile.isSome = true) ∧
      (cfg.analysis_pipeline.any (stepHasEnabled StepKind.univariate) = true →
        st.report.univariate_plots.isSome = true) ∧
      (cfg.analysis_pipeline.any (stepHasEnabled StepKind.multivariate) = true →
        st.report.multivariate_plots.isSome = true) := by
  obtain ⟨st0, hx, hbiv, _, _, hpa, _, hua, _, hma, hwa⟩ :=
    execPipeline_missing r hr cfg.target_variable ht cfg.analysis_pipeline htc
      (initState cfg)
  refine ⟨{ st0 with reportGenerated := true }, ?_, rfl, ?_, ?_, hpa, hua, hma⟩
  · unfold Analyzer.run
    rw [hx]
  · show st0.report.bivariate_plots = none
    rw [hbiv]
    rfl
  · exact hwa hbv

/-- Dataframe of the C7 counterexample. -/
def dfC7 : List DFColumn :=
  [⟨"age", ColKind.numerical, []⟩,
   ⟨"sex", ColKind.categorical, [some "m", some "f"]⟩]

/-- Enabled target-centric bivariate step. -/
def stepBivariateTC : AnalysisStep := ⟨none, none, some ⟨true, true, 20⟩, none⟩

/-- Enabled bivariate step with `target_centric = false`. -/
def stepBivariateNonTC : AnalysisStep :=
  ⟨none, none, some ⟨true, false, 20⟩, none⟩

/-- Renderers of the C7 counterexample, wired to the modelled plot modules. -/
def renderersC7 : Renderers := mkRenderers dfC7 [("shape", "(2, 2)")]

/-- Pipeline of the C7 counterexample: it contains an enabled target-centric
bivariate step, but also a second enabled bivariate step with
`target_centric = false`. -/
def cfgC7 : Config :=
  { report_title := "EDA Report", target_variable := none,
    analysis_pipeline := [stepProfileOn, stepBivariateTC, stepBivariateNonTC] }

/-- C7 fails as literally universally stated: this run's pipeline does
contain an enabled bivariate step with `target_centric = true` and no target
is configured, yet `report_data` ends the run with the `bivariate_plots` key
present — the second, non-target-centric bivariate step runs (bivariate
`generate_plots` returns the empty list without needing a target) and writes
the key. -/
theorem C7_counterexample :
    cfgC7.target_variable = none ∧
    stepBivariateTC ∈ cfgC7.analysis_pipeline ∧
    stepBivariateTC.bivariate = some ⟨true, true, 20⟩ ∧
    (Analyzer.run renderersC7 cfgC7).2 = none ∧
    LogEntry.missingTargetWarning ∈ (Analyzer.run renderersC7 cfgC7).1.logs ∧
    (Analyzer.run renderersC7 cfgC7).1.report.bivariate_plots = some [] :=
  ⟨rfl, by decide, rfl, rfl, by decide, rfl⟩

/-- Scenario C pipeline of the C7 witness: profile, univariate, one
target-centric bivariate step, multivariate; no target configured. -/
def cfgC7W : Config :=
  { report_title := "EDA Report", target_variable := none,
    analysis_pipeline := [stepProfileOn, stepUnivariateDefault,
                          stepBivariateTC, stepMultivariateAll] }

theorem C7_missing_target_witness :
    ∃ st, Analyzer.run renderersOk cfgC7W = (st, none) ∧
      st.reportGenerated = true ∧
      st.report.bivariate_plots = none ∧
      LogEntry.missingTargetWarning ∈ st.logs ∧
      (cfgC7W.analysis_pipeline.any (stepHasEnabled StepKind.profile) = true →
        st.report.profile.isSome = true) ∧
      (cfgC7W.analysis_pipeline.any (stepHasEnabled StepKind.univariate) = true →
        st.report.univariate_plots.isSome = true) ∧
      (cfgC7W.analysis_pipeline.any (stepHasEnabled StepKind.multivariate) = true →
        st.report.multivariate_plots.isSome = true) :=
  C7_missing_target renderersOk renderersOk_total cfgC7W rfl (by decide) (by decide)
